import Mathlib

/-!
Verification development for `src/runMediaUpdater.py`, a script that mirrors the
currently playing media onto a Stream Deck touchscreen (text banner) and key 6
(album art), polling every 500 ms.

The Python script is shallowly embedded below.  External effects are made
explicit:
* the WinRT media provider is an environment value (`ProviderEnv`) describing
  whether the API call raises, finds no session, or finds a session with given
  properties;
* device pushes (`set_touchscreen_image` / `set_key_image`) succeed or raise a
  `TransportError` according to an `Oracle` of booleans, one per call site;
* each push performed by a tick is recorded as a `PushEvent`;
* an uncaught exception propagating out of the tick body (which ends the
  `runUpdaterTask` loop) is recorded in the `raised` flag;
* Python's in-process deterministic `hash` on the thumbnail value is modelled
  by a fixed function (`hashBytes` on raw bytes, `noImageHash` for the
  `"No Image"` string); nothing below depends on particular hash values,
  only on determinism.
* the favorites CSV file is a list of lines threaded through `recordFavorite`.
-/

set_option maxHeartbeats 1000000

namespace MediaUpdater

/-- Line 24: the key that shows the album art (and, on press, records a favorite). -/
def ALBUM_ART_KEY_NUMBER : Nat := 6

/-- Line 25: the key that forces a refresh when pressed. -/
def REFRESH_BUTTON_KEY_NUMBER : Nat := 5

/-- The Python value stored under the `thumbnailBytes` key of the media-info
dict: real JPEG bytes (line 55), the literal string `"No Image"` (line 73,
no media session), or Python `None` (line 61, thumbnail copy failed). -/
inductive Thumb where
  | bytes (data : List Nat)
  | noImage
  | pyNone
deriving DecidableEq

/-- The media-info dict built by `get_media_info` / `get_current_media_info`
(lines 27-90).  `none` in `title` means the key holds Python `None`; `none` in
`artist` / `album_title` / `thumbnailBytes` means the KEY IS ABSENT from the
dict (the degraded dicts of lines 71-73 and 88-89 omit these keys). -/
structure MediaInfo where
  title : Option String
  artist : Option String
  album_title : Option String
  genres : List String
  thumbnailBytes : Option Thumb
deriving DecidableEq

/-- Properties of a live media session as exposed by the WinRT API: the
metadata values and the outcome of the thumbnail copy/resize of lines 44-61
(`none` = the `try` block raised, giving `thumbnailBytes = None`;
`some b` = the re-encoded 120x120 JPEG bytes). -/
structure SessionProps where
  title : Option String
  artist : String
  album_title : String
  genres : List String
  thumbResult : Option (List Nat)
deriving DecidableEq

/-- The state of the external media provider during one poll. -/
inductive ProviderEnv where
  | raises
  | noSession
  | session (props : SessionProps)
deriving DecidableEq

/-- Model of Python's in-process `hash` on the thumbnail JPEG bytes
(line 172).  Only determinism matters below, not the particular values. -/
def hashBytes (b : List Nat) : Int :=
  b.foldl (fun acc c => acc * 256 + (c : Int)) 7

/-- Model of Python's in-process `hash ("No Image")` (line 172 applied to the
sentinel string of line 73). -/
def noImageHash : Int := 1009

/-- Lines 27-79, `get_media_info`: polls the WinRT API.  May raise (modelled
as `Except.error`); with no current session returns the sentinel dict
`{title: "---", thumbnailBytes: "No Image"}` (lines 71-79); with a session
returns the property dict, with `thumbnailBytes` the copied JPEG bytes or
`None` if the thumbnail copy failed (lines 44-61). -/
def get_media_info : ProviderEnv → Except Unit MediaInfo
  | ProviderEnv.raises => Except.error ()
  | ProviderEnv.noSession =>
      Except.ok ⟨some "---", none, none, [], some Thumb.noImage⟩
  | ProviderEnv.session p =>
      Except.ok ⟨p.title, some p.artist, some p.album_title, p.genres,
        some (match p.thumbResult with
          | some b => Thumb.bytes b
          | none => Thumb.pyNone)⟩

/-- Lines 81-90, `get_current_media_info`: runs `get_media_info` and converts
any exception into the bare dict `{title: ""}` (which lacks the
`thumbnailBytes`, `artist` and `album_title` keys). -/
def get_current_media_info (env : ProviderEnv) : MediaInfo :=
  match get_media_info env with
  | Except.ok d => d
  | Except.error _ => ⟨some "", none, none, [], none⟩

/-- Lines 162-174, `hashAlbumArt`: `None` if the dict is `None` or lacks the
`thumbnailBytes` key; `None` (bare `return`) if the value is Python `None`;
otherwise `hash` of the value (bytes or the `"No Image"` string — both are
hashable, so the `except` branch of line 173 is unreachable). -/
def hashAlbumArt : Option MediaInfo → Option Int
  | none => none
  | some m =>
    match m.thumbnailBytes with
    | none => none
    | some Thumb.pyNone => none
    | some Thumb.noImage => some noImageHash
    | some (Thumb.bytes b) => some (hashBytes b)

/-- Outcomes of the device push calls a single tick (or callback) can make,
one boolean per call site (`true` = the call returns, `false` = it raises a
`TransportError`).  `textRenderOk` covers the PIL rendering of lines 102-127
before the touchscreen push (all inside the same `try`). -/
structure Oracle where
  textRenderOk : Bool
  textOk : Bool
  blank1Ok : Bool
  artOk : Bool
  fallbackOk : Bool
  noImageBlankOk : Bool
deriving DecidableEq

/-- The oracle in which every render and push succeeds. -/
def allOk : Oracle := ⟨true, true, true, true, true, true⟩

/-- One device push performed during a tick: a touchscreen (text banner) push,
a blank 120x120 placeholder pushed to the album-art key, or real artwork bytes
pushed to the album-art key.  `ok = false` means the call raised. -/
inductive PushEvent where
  | text (ok : Bool)
  | artBlank (ok : Bool)
  | artImage (data : List Nat) (ok : Bool)
deriving DecidableEq

/-- The loop-local state of `runUpdaterTask` (lines 223-224). -/
structure SyncState where
  previousTitle : String
  previousMediaHash : Option Int
deriving DecidableEq

/-- Initial loop state (lines 223-224): `previousTitle = ""`,
`previousMediaHash = None`. -/
def initialState : SyncState := ⟨"", none⟩

/-- Result of one iteration of the `while True` body of `runUpdaterTask`:
the pushes attempted, the loop state afterwards, and whether an uncaught
exception propagated out of the body (ending the loop). -/
structure TickResult where
  events : List PushEvent
  state : SyncState
  raised : Bool
deriving DecidableEq

/-- Lines 92-134, `updateCurrentlyPlaying`: returns without pushing when the
title is `None` or `""`; otherwise renders the banner and pushes it to the
touchscreen, with every error caught inside the function (lines 132-134), so
it never raises.  A render failure means the push call is never reached. -/
def updateCurrentlyPlaying (info : MediaInfo) (o : Oracle) : List PushEvent :=
  match info.title with
  | none => []
  | some t =>
    if t = "" then []
    else if o.textRenderOk then [PushEvent.text o.textOk] else []

/-- Lines 214-220, `blankAlbumArt`: pushes a blank 120x120 placeholder to the
album-art key.  The push is NOT inside a `try`, so a failure raises to the
caller.  Returns the event and whether it raised. -/
def blankAlbumArt (ok : Bool) : List PushEvent × Bool :=
  ([PushEvent.artBlank ok], !ok)

/-- Lines 136-160, `updateAlbumArt`: no-op when the dict is `None`, lacks the
`thumbnailBytes` key, or holds Python `None`; `blankAlbumArt` (which may
raise) when it holds `"No Image"`; otherwise pushes the bytes, and on failure
pushes a blank placeholder from the `except` handler — that fallback push is
itself unprotected and raises on failure.  Returns the events and whether an
exception propagated. -/
def updateAlbumArt (info : Option MediaInfo) (o : Oracle) : List PushEvent × Bool :=
  match info with
  | none => ([], false)
  | some m =>
    match m.thumbnailBytes with
    | none => ([], false)
    | some Thumb.pyNone => ([], false)
    | some Thumb.noImage => blankAlbumArt o.noImageBlankOk
    | some (Thumb.bytes b) =>
      if o.artOk then ([PushEvent.artImage b true], false)
      else if o.fallbackOk then
        ([PushEvent.artImage b false, PushEvent.artBlank true], false)
      else ([PushEvent.artImage b false, PushEvent.artBlank false], true)

/-- Line 229: the guard deciding whether the text banner is re-rendered and
re-pushed — `previousTitle != currentTitle and currentTitle != None and
currentTitle != ""`. -/
def textChanged (s : SyncState) (info : MediaInfo) : Bool :=
  match info.title with
  | none => false
  | some t => decide (¬ s.previousTitle = t) && decide (¬ t = "")

/-- Lines 235-238 of the tick: compute `hashAlbumArt`, and when it differs
from `previousMediaHash` and is not `None`, call `updateAlbumArt` and — only
if that returned normally — store the new hash.  `evs` are the events already
produced earlier in the tick, `s` the state after the title branch. -/
def artPhase (evs : List PushEvent) (s : SyncState) (info : MediaInfo)
    (o : Oracle) : TickResult :=
  if s.previousMediaHash ≠ hashAlbumArt (some info)
      ∧ hashAlbumArt (some info) ≠ none then
    match updateAlbumArt (some info) o with
    | (ev2, true) => ⟨evs ++ ev2, s, true⟩
    | (ev2, false) => ⟨evs ++ ev2, ⟨s.previousTitle, hashAlbumArt (some info)⟩, false⟩
  else ⟨evs, s, false⟩

/-- Lines 226-238: one iteration of the `runUpdaterTask` loop body.  On a
title change it pushes the banner, blanks the album-art key (an unprotected
push: failure raises, aborting the tick before the state assignments of
lines 232-233), resets `previousMediaHash` to `None` and stores the new
title; then the artwork phase runs.  In the title branch `info.title` is
`some t`, so `Option.getD` returns exactly the current title. -/
def runTick (s : SyncState) (info : MediaInfo) (o : Oracle) : TickResult :=
  if textChanged s info then
    if o.blank1Ok then
      artPhase (updateCurrentlyPlaying info o ++ [PushEvent.artBlank true])
        ⟨info.title.getD s.previousTitle, none⟩ info o
    else ⟨updateCurrentlyPlaying info o ++ [PushEvent.artBlank false], s, true⟩
  else artPhase [] s info o

/-- Repeated ticks of `runUpdaterTask` over a list of successive snapshots;
a raised tick ends the loop (no further iterations run). -/
def runTicks (s : SyncState) (infos : List MediaInfo) (o : Oracle) : TickResult :=
  match infos with
  | [] => ⟨[], s, false⟩
  | i :: rest =>
    if (runTick s i o).raised then
      ⟨(runTick s i o).events, (runTick s i o).state, true⟩
    else
      ⟨(runTick s i o).events ++ (runTicks (runTick s i o).state rest o).events,
        (runTicks (runTick s i o).state rest o).state,
        (runTicks (runTick s i o).state rest o).raised⟩

/-- Number of touchscreen (text banner) pushes among the events. -/
def countText (evs : List PushEvent) : Nat :=
  (evs.filter fun e => match e with
    | PushEvent.text _ => true
    | _ => false).length

/-- Number of real-artwork pushes to the album-art key among the events. -/
def countArtImage (evs : List PushEvent) : Nat :=
  (evs.filter fun e => match e with
    | PushEvent.artImage _ _ => true
    | _ => false).length

/-- Number of blank-placeholder pushes to the album-art key among the events. -/
def countArtBlank (evs : List PushEvent) : Nat :=
  (evs.filter fun e => match e with
    | PushEvent.artBlank _ => true
    | _ => false).length

/-- Number of pushes to the album-art key (blank or real) among the events. -/
def countArtKey (evs : List PushEvent) : Nat :=
  (evs.filter fun e => match e with
    | PushEvent.text _ => false
    | _ => true).length

/-- Line 193: the CSV record `"title","artist","album"` plus newline. -/
def favoriteLine (title artist album : String) : String :=
  "\"" ++ title ++ "\",\"" ++ artist ++ "\",\"" ++ album ++ "\"\n"

/-- Line 198: the header written when `favorites.csv` does not exist yet. -/
def headerLine : String := "Title,Artist,Album\n"

/-- Lines 202-212 of `recordFavorite`, operating on the lines read back from
the file: append the candidate unless the file has more than one line and its
last line equals the candidate. -/
def recordLines (ls : List String) (fav : String) : List String :=
  if 1 < ls.length ∧ ls.getLast? = some fav then ls else ls ++ [fav]

/-- Lines 192-212, `recordFavorite`: the favorites file as a list of lines
(`none` = the file does not exist).  A missing file first gets the header
(lines 196-199), then the dedup-append of `recordLines` runs. -/
def recordFavorite (file : Option (List String)) (title artist album : String) :
    List String :=
  let ls := match file with
    | none => [headerLine]
    | some ls => ls
  recordLines ls (favoriteLine title artist album)

/-- Outcome of `key_change_callback`: normal return with the pushes made and
the favorites file afterwards, or an exception (`KeyError` from a missing
dict key, or any other uncaught error) carrying the file as it was when the
exception was raised. -/
inductive CbOutcome where
  | ok (events : List PushEvent) (file : Option (List String))
  | raisedKeyError (events : List PushEvent) (file : Option (List String))
  | raisedOther (events : List PushEvent) (file : Option (List String))
deriving DecidableEq

/-- Lines 176-189, `key_change_callback`.  On the refresh key it refetches and
re-pushes both regions (the blank push of line 181 is unprotected).  On the
album-art key it refetches and looks up `title`, `artist`, `album_title`;
the `artist` / `album_title` lookups raise `KeyError` when the key is absent
(before `recordFavorite` is reached); a `None` title reaches `recordFavorite`
and raises a `TypeError` while building the record, before any file access. -/
def key_change_callback (key : Nat) (key_state : Bool) (env : ProviderEnv)
    (o : Oracle) (file : Option (List String)) : CbOutcome :=
  if key = REFRESH_BUTTON_KEY_NUMBER ∧ key_state then
    if o.blank1Ok then
      match updateAlbumArt (some (get_current_media_info env)) o with
      | (ev2, true) =>
          CbOutcome.raisedOther (updateCurrentlyPlaying (get_current_media_info env) o
            ++ [PushEvent.artBlank true] ++ ev2) file
      | (ev2, false) =>
          CbOutcome.ok (updateCurrentlyPlaying (get_current_media_info env) o
            ++ [PushEvent.artBlank true] ++ ev2) file
    else CbOutcome.raisedOther (updateCurrentlyPlaying (get_current_media_info env) o
      ++ [PushEvent.artBlank false]) file
  else if key = ALBUM_ART_KEY_NUMBER ∧ key_state then
    match (get_current_media_info env).artist with
    | none => CbOutcome.raisedKeyError [] file
    | some artist =>
      match (get_current_media_info env).album_title with
      | none => CbOutcome.raisedKeyError [] file
      | some album =>
        match (get_current_media_info env).title with
        | none => CbOutcome.raisedOther [] file
        | some t => CbOutcome.ok [] (some (recordFavorite file t artist album))
  else CbOutcome.ok [] file

/-- Line 105: characters kept by the banner renderer (`ord(i) < 128`). -/
def sanitizeAscii (t : List Char) : List Char :=
  t.filter fun c => decide (c.toNat < 128)

/-- Python's `str.strip` whitespace set: space, tab, newline, carriage
return, vertical tab, form feed. -/
def isPyWs (c : Char) : Bool :=
  c = ' ' || c = '\t' || c = '\n' || c = '\r' || c = '\x0b' || c = '\x0c'

/-- Line 107: `title.strip()` — drop leading and trailing whitespace. -/
def pyStrip (t : List Char) : List Char :=
  (t.dropWhile isPyWs).rdropWhile isPyWs

/-- Line 110: the fixed character budget after which a long title is split. -/
def wrapThreshold : Nat := 65

/-- Lines 110-111: when the (sanitized, stripped) title exceeds 65 characters,
insert one newline after character 65. -/
def wrapTitle (t : List Char) : List Char :=
  if wrapThreshold < t.length then
    t.take wrapThreshold ++ '\n' :: t.drop wrapThreshold
  else t

/-- Lines 105-107: the full title sanitization before wrapping. -/
def sanitizeTitle (t : List Char) : List Char :=
  pyStrip (sanitizeAscii t)

/-- Number of display lines of a rendered text: newline count plus one. -/
def lineCount (t : List Char) : Nat :=
  (t.filter fun c => c = '\n').length + 1

/-! ### Helper lemmas -/

theorem countText_append (a b : List PushEvent) :
    countText (a ++ b) = countText a + countText b := by
  simp [countText, List.filter_append]

theorem countText_updateAlbumArt (info : Option MediaInfo) (o : Oracle) :
    countText (updateAlbumArt info o).1 = 0 := by
  cases info with
  | none => rfl
  | some m =>
    cases hm : m.thumbnailBytes with
    | none => simp [updateAlbumArt, hm, countText]
    | some th =>
      cases th with
      | bytes b =>
        by_cases h1 : o.artOk = true <;> by_cases h2 : o.fallbackOk = true <;>
          simp [updateAlbumArt, hm, h1, h2, countText, List.filter]
      | noImage => simp [updateAlbumArt, hm, countText, blankAlbumArt, List.filter]
      | pyNone => simp [updateAlbumArt, hm, countText]

theorem countText_artPhase (evs : List PushEvent) (s : SyncState)
    (info : MediaInfo) (o : Oracle) :
    countText (artPhase evs s info o).events = countText evs := by
  rcases hu : updateAlbumArt (some info) o with ⟨ev2, raised⟩
  have h2 : countText ev2 = 0 := by
    have h3 := countText_updateAlbumArt (some info) o
    rw [hu] at h3
    exact h3
  cases raised <;>
    · unfold artPhase
      rw [hu]
      split <;> simp [countText_append, h2]

theorem no_text_of_not_textChanged (s : SyncState) (info : MediaInfo)
    (o : Oracle) (h : textChanged s info = false) :
    countText (runTick s info o).events = 0 := by
  unfold runTick
  rw [h]
  simpa using countText_artPhase [] s info o

theorem artPhase_previousTitle (evs : List PushEvent) (s : SyncState)
    (info : MediaInfo) (o : Oracle) :
    (artPhase evs s info o).state.previousTitle = s.previousTitle := by
  rcases hu : updateAlbumArt (some info) o with ⟨ev2, raised⟩
  cases raised <;>
    · unfold artPhase
      rw [hu]
      split <;> rfl

theorem updateAlbumArt_no_raise (info : MediaInfo) (o : Oracle)
    (h2 : o.fallbackOk = true) (h3 : o.noImageBlankOk = true) :
    (updateAlbumArt (some info) o).2 = false := by
  cases hm : info.thumbnailBytes with
  | none => simp [updateAlbumArt, hm]
  | some th =>
    cases th with
    | bytes b =>
      by_cases ha : o.artOk = true <;> simp [updateAlbumArt, hm, ha, h2]
    | noImage => simp [updateAlbumArt, hm, blankAlbumArt, h3]
    | pyNone => simp [updateAlbumArt, hm]

theorem artPhase_no_raise (evs : List PushEvent) (s : SyncState)
    (info : MediaInfo) (o : Oracle)
    (h2 : o.fallbackOk = true) (h3 : o.noImageBlankOk = true) :
    (artPhase evs s info o).raised = false := by
  rcases hu : updateAlbumArt (some info) o with ⟨ev2, raised⟩
  have hr : raised = false := by
    have h4 := updateAlbumArt_no_raise info o h2 h3
    rw [hu] at h4
    exact h4
  subst hr
  unfold artPhase
  rw [hu]
  split <;> rfl

theorem runTick_steady (t : String) (b : List Nat) (info : MediaInfo)
    (o : Oracle) (ht : info.title = some t)
    (hb : info.thumbnailBytes = some (Thumb.bytes b)) :
    runTick ⟨t, some (hashBytes b)⟩ info o
      = ⟨[], ⟨t, some (hashBytes b)⟩, false⟩ := by
  have htc : textChanged ⟨t, some (hashBytes b)⟩ info = false := by
    simp [textChanged, ht]
  have hh : hashAlbumArt (some info) = some (hashBytes b) := by
    simp [hashAlbumArt, hb]
  unfold runTick
  rw [htc, if_neg Bool.false_ne_true]
  unfold artPhase
  rw [hh, if_neg (by simp)]

theorem runTicks_steady (t : String) (b : List Nat) (info : MediaInfo)
    (o : Oracle) (ht : info.title = some t)
    (hb : info.thumbnailBytes = some (Thumb.bytes b)) (M : Nat) :
    runTicks ⟨t, some (hashBytes b)⟩ (List.replicate M info) o
      = ⟨[], ⟨t, some (hashBytes b)⟩, false⟩ := by
  induction M with
  | zero => rfl
  | succ n ih =>
    rw [List.replicate_succ]
    unfold runTicks
    rw [runTick_steady t b info o ht hb, ih]
    rfl

theorem runTick_first (t : String) (b : List Nat) (info : MediaInfo)
    (ht : info.title = some t) (hb : info.thumbnailBytes = some (Thumb.bytes b))
    (hne : ¬ t = "") :
    runTick initialState info allOk
      = ⟨[PushEvent.text true, PushEvent.artBlank true, PushEvent.artImage b true],
         ⟨t, some (hashBytes b)⟩, false⟩ := by
  have h1 : ¬ ("" : String) = t := fun e => hne e.symm
  have htc : textChanged initialState info = true := by
    simp [textChanged, ht, initialState, h1, hne]
  have hh : hashAlbumArt (some info) = some (hashBytes b) := by
    simp [hashAlbumArt, hb]
  have hup : updateCurrentlyPlaying info allOk = [PushEvent.text true] := by
    simp [updateCurrentlyPlaying, ht, hne, allOk]
  have hua : updateAlbumArt (some info) allOk = ([PushEvent.artImage b true], false) := by
    simp [updateAlbumArt, hb, allOk]
  unfold runTick artPhase
  rw [htc]
  simp [hup, hua, hh, ht, initialState, show allOk.blank1Ok = true from rfl]

theorem head?_of_isPrefixAux {α : Type} {l₁ l₂ : List α} {c : α}
    (h : ∃ r, l₁ ++ r = l₂) (hc : l₁.head? = some c) : l₂.head? = some c := by
  obtain ⟨r, rfl⟩ := h
  cases l₁ with
  | nil => simp at hc
  | cons a l => simpa using hc

theorem head?_dropWhile_false {α : Type} (p : α → Bool) :
    ∀ (l : List α) (c : α), (l.dropWhile p).head? = some c → p c = false := by
  intro l
  induction l with
  | nil => intro c h; simp [List.dropWhile] at h
  | cons a l ih =>
    intro c h
    rw [List.dropWhile_cons] at h
    by_cases ha : p a = true
    · rw [if_pos ha] at h
      exact ih c h
    · rw [if_neg ha] at h
      simp only [List.head?_cons, Option.some.injEq] at h
      subst h
      exact Bool.eq_false_iff.mpr ha

/-! ### Claim theorems -/

/-- C2 (confirmed): the text-change guard of line 229 is true iff the
snapshot's title is non-`None`, non-empty, and differs from the previously
stored title; in particular an empty (or `None`) title never triggers a text
re-render, and when the guard is false the tick performs no text push. -/
theorem claim_c2_text_change_guard (s : SyncState) (info : MediaInfo)
    (o : Oracle) :
    (textChanged s info = true ↔
      ∃ t, info.title = some t ∧ t ≠ "" ∧ t ≠ s.previousTitle)
    ∧ (info.title = some "" ∨ info.title = none → textChanged s info = false)
    ∧ (textChanged s info = false → countText (runTick s info o).events = 0) := by
  refine ⟨?_, ?_, ?_⟩
  · cases h : info.title with
    | none => simp [textChanged, h]
    | some t =>
      simp only [textChanged, h, Bool.and_eq_true, decide_eq_true_eq,
        Option.some.injEq]
      constructor
      · rintro ⟨h1, h2⟩
        exact ⟨t, rfl, h2, fun e => h1 e.symm⟩
      · rintro ⟨t', rfl, h2, h3⟩
        exact ⟨fun e => h3 e.symm, h2⟩
  · rintro (h | h) <;> simp [textChanged, h]
  · exact no_text_of_not_textChanged s info o

/-- C2 witness: a concrete snapshot with empty title triggers no text push. -/
theorem claim_c2_text_change_guard_witness :
    countText (runTick initialState (get_current_media_info ProviderEnv.raises)
      allOk).events = 0 :=
  (claim_c2_text_change_guard initialState
    (get_current_media_info ProviderEnv.raises) allOk).2.2 (by decide)

/-- C9 (confirmed): `recordFavorite` is append-only with last-line dedup: a
missing file first gets the header line before the data line; any call either
leaves the lines unchanged or appends exactly the candidate record at the
end (never rewriting history); recording the same triple twice in a row —
starting from a missing file, or from any nonempty file — appends at most the
first copy (the second call is a no-op); and a candidate differing from the
last line is always appended. -/
theorem claim_c9_record_favorite (ls : List String)
    (title artist album : String) :
    (recordFavorite none title artist album
      = [headerLine, favoriteLine title artist album])
    ∧ (recordFavorite (some ls) title artist album = ls
        ∨ recordFavorite (some ls) title artist album
          = ls ++ [favoriteLine title artist album])
    ∧ (recordFavorite (some (recordFavorite none title artist album))
        title artist album = recordFavorite none title artist album)
    ∧ (ls ≠ [] →
        recordFavorite (some (recordFavorite (some ls) title artist album))
          title artist album = recordFavorite (some ls) title artist album)
    ∧ (ls.getLast? ≠ some (favoriteLine title artist album) →
        recordFavorite (some ls) title artist album
          = ls ++ [favoriteLine title artist album]) := by
  refine ⟨?_, ?_, ?_, ?_, ?_⟩
  · simp [recordFavorite, recordLines]
  · by_cases h : 1 < ls.length ∧ ls.getLast? = some (favoriteLine title artist album)
    · left; simp [recordFavorite, recordLines, h]
    · right; simp [recordFavorite, recordLines, h]
  · simp [recordFavorite, recordLines, List.getLast?]
  · intro hne
    by_cases h : 1 < ls.length ∧ ls.getLast? = some (favoriteLine title artist album)
    · simp [recordFavorite, recordLines, h]
    · have hlen : 1 < (ls ++ [favoriteLine title artist album]).length := by
        rcases List.exists_cons_of_ne_nil hne with ⟨a, l, rfl⟩
        simp
      simp [recordFavorite, recordLines, h, hlen, List.getLast?_concat, hne]
  · intro h
    have hc : ¬(1 < ls.length ∧ ls.getLast? = some (favoriteLine title artist album)) :=
      fun hand => h hand.2
    simp only [recordFavorite, recordLines]
    rw [if_neg hc]

/-- C9 witness: concrete lifecycle — first write creates header plus record,
second identical write changes nothing, a differing triple is appended. -/
theorem claim_c9_record_favorite_witness :
    recordFavorite (some (recordFavorite (some ["x\n"]) "t" "a" "b")) "t" "a" "b"
      = recordFavorite (some ["x\n"]) "t" "a" "b"
    ∧ recordFavorite (some ["x\n"]) "t" "a" "b" = ["x\n", favoriteLine "t" "a" "b"] :=
  ⟨(claim_c9_record_favorite ["x\n"] "t" "a" "b").2.2.2.1 (by decide),
   (claim_c9_record_favorite ["x\n"] "t" "a" "b").2.2.2.2 (by decide)⟩

/-- C10 (confirmed): pressing the favorite key while the fetched dict lacks
the `artist` or `album_title` key (as both degraded dicts of
`get_current_media_info` do) raises `KeyError` before `recordFavorite` runs,
leaving the favorites file untouched. -/
theorem claim_c10_favorite_keyerror (env : ProviderEnv) (o : Oracle)
    (file : Option (List String)) :
    ((get_current_media_info env).artist = none
        ∨ (get_current_media_info env).album_title = none →
      key_change_callback ALBUM_ART_KEY_NUMBER true env o file
        = CbOutcome.raisedKeyError [] file)
    ∧ (get_current_media_info ProviderEnv.noSession).artist = none
    ∧ (get_current_media_info ProviderEnv.raises).artist = none := by
  refine ⟨?_, by decide, by decide⟩
  intro h
  unfold key_change_callback
  rw [if_neg (by decide), if_pos (by decide)]
  rcases h with h | h
  · rw [h]
  · cases ha : (get_current_media_info env).artist with
    | none => rfl
    | some artist => simp [ha, h]

/-- C8 (confirmed): the banner renderer of lines 104-111 keeps exactly the
ASCII code points and strips surrounding whitespace; a sanitized title longer
than the 65-character budget containing no natural break (no whitespace at
all, hence no earlier break candidate) gets exactly one line break inserted
at that boundary, giving exactly two lines. -/
theorem claim_c8_title_sanitize_wrap (t : List Char) :
    (∀ c ∈ sanitizeTitle t, c.toNat < 128)
    ∧ (∀ c, (sanitizeTitle t).head? = some c → isPyWs c = false)
    ∧ (∀ c, (sanitizeTitle t).getLast? = some c → isPyWs c = false)
    ∧ (wrapThreshold < (sanitizeTitle t).length →
        (∀ c ∈ sanitizeTitle t, isPyWs c = false) →
        wrapTitle (sanitizeTitle t)
          = (sanitizeTitle t).take wrapThreshold
            ++ '\n' :: (sanitizeTitle t).drop wrapThreshold
        ∧ lineCount (wrapTitle (sanitizeTitle t)) = 2) := by
  have hsub : ∀ c ∈ sanitizeTitle t, c ∈ sanitizeAscii t := by
    intro c hc
    have h1 : c ∈ (sanitizeAscii t).dropWhile isPyWs :=
      (List.rdropWhile_prefix isPyWs ((sanitizeAscii t).dropWhile isPyWs)).sublist.subset hc
    exact (List.dropWhile_suffix isPyWs).sublist.subset h1
  refine ⟨?_, ?_, ?_, ?_⟩
  · intro c hc
    have h2 := List.of_mem_filter (hsub c hc)
    simpa using h2
  · intro c hc
    have hp := List.rdropWhile_prefix isPyWs ((sanitizeAscii t).dropWhile isPyWs)
    exact head?_dropWhile_false isPyWs (sanitizeAscii t) c
      (head?_of_isPrefixAux hp hc)
  · intro c hc
    have hne : sanitizeTitle t ≠ [] := by
      intro e
      rw [sanitizeTitle, pyStrip] at e
      rw [sanitizeTitle, pyStrip, e] at hc
      simp at hc
    have hlast := List.rdropWhile_last_not isPyWs ((sanitizeAscii t).dropWhile isPyWs)
      hne
    rw [List.getLast?_eq_getLast_of_ne_nil hne] at hc
    rw [Option.some_inj] at hc
    have hc2 : isPyWs c ≠ true := by
      rw [← hc]
      exact hlast
    exact Bool.eq_false_iff.mpr hc2
  · intro h65 hws
    have hwrap : wrapTitle (sanitizeTitle t)
        = (sanitizeTitle t).take wrapThreshold
          ++ '\n' :: (sanitizeTitle t).drop wrapThreshold := by
      unfold wrapTitle
      rw [if_pos h65]
    refine ⟨hwrap, ?_⟩
    have hnl : ∀ c ∈ sanitizeTitle t, ¬(c = '\n') := by
      intro c hc e
      subst e
      have h3 := hws _ hc
      simp [isPyWs] at h3
    have htake : ((sanitizeTitle t).take wrapThreshold).filter
        (fun c => decide (c = '\n')) = [] := by
      rw [List.filter_eq_nil_iff]
      intro c hc
      simpa using hnl c (List.take_subset wrapThreshold _ hc)
    have hdrop : ((sanitizeTitle t).drop wrapThreshold).filter
        (fun c => decide (c = '\n')) = [] := by
      rw [List.filter_eq_nil_iff]
      intro c hc
      simpa using hnl c (List.drop_subset wrapThreshold _ hc)
    rw [hwrap]
    simp [lineCount, List.filter_append, htake, hdrop]

/-- C8 witness: a 66-character break-free title wraps into exactly two lines. -/
theorem claim_c8_title_sanitize_wrap_witness :
    wrapThreshold < (sanitizeTitle (List.replicate 66 'a')).length
    ∧ lineCount (wrapTitle (sanitizeTitle (List.replicate 66 'a'))) = 2 :=
  ⟨by decide,
   ((claim_c8_title_sanitize_wrap (List.replicate 66 'a')).2.2.2
     (by decide) (by decide)).2⟩

/-- C10 witness: the no-session dict lacks `artist`, so a concrete favorite
key press raises `KeyError` and the (missing) file stays missing. -/
theorem claim_c10_favorite_keyerror_witness :
    key_change_callback ALBUM_ART_KEY_NUMBER true ProviderEnv.noSession allOk none
      = CbOutcome.raisedKeyError [] none :=
  (claim_c10_favorite_keyerror ProviderEnv.noSession allOk none).1 (by decide)

/-- C1 counterexample: a tick in which the artwork push raises (first event
has `ok = false`; the caught failure is recovered by a fallback blank push)
still updates `previousMediaHash` — `SyncState` is NOT left unchanged on a
failed artwork push, so the next tick with the same snapshot does not retry. -/
theorem claim_c1_counterexample :
    (runTick ⟨"A", none⟩ ⟨some "A", none, none, [], some (Thumb.bytes [1])⟩
      ⟨true, true, true, false, true, true⟩).events
      = [PushEvent.artImage [1] false, PushEvent.artBlank true]
    ∧ (runTick ⟨"A", none⟩ ⟨some "A", none, none, [], some (Thumb.bytes [1])⟩
        ⟨true, true, true, false, true, true⟩).state.previousMediaHash
      = some (hashBytes [1])
    ∧ ¬ (runTick ⟨"A", none⟩ ⟨some "A", none, none, [], some (Thumb.bytes [1])⟩
        ⟨true, true, true, false, true, true⟩).state = ⟨"A", none⟩ := by
  decide

/-- C1 amended: `previousMediaHash` is updated whenever `updateAlbumArt`
returns normally — including when the device push failed and was recovered by
the fallback blank push (lines 153-160) — and `previousTitle` is updated on
the title branch regardless of text-push success; the state is left
unchanged only when an uncaught exception aborts the tick first. -/
theorem claim_c1_amended (s : SyncState) (info : MediaInfo) (o : Oracle)
    (t : String) (b : List Nat) :
    (textChanged s info = false → info.thumbnailBytes = some (Thumb.bytes b) →
      s.previousMediaHash ≠ some (hashBytes b) → o.fallbackOk = true →
      (runTick s info o).state.previousMediaHash = some (hashBytes b)
      ∧ (runTick s info o).raised = false)
    ∧ (textChanged s info = true → info.title = some t → o.blank1Ok = true →
      (runTick s info o).state.previousTitle = t) := by
  constructor
  · intro htc hb hprev hfb
    have hh : hashAlbumArt (some info) = some (hashBytes b) := by
      simp [hashAlbumArt, hb]
    have hguard : s.previousMediaHash ≠ hashAlbumArt (some info)
        ∧ hashAlbumArt (some info) ≠ none := by
      rw [hh]
      exact ⟨hprev, by simp⟩
    unfold runTick artPhase
    rw [htc, if_neg Bool.false_ne_true, if_pos hguard]
    by_cases ha : o.artOk = true
    · simp [updateAlbumArt, hb, ha, hh]
    · simp [updateAlbumArt, hb, ha, hfb, hh]
  · intro htc ht hb1
    unfold runTick
    rw [htc, if_pos rfl, if_pos hb1, artPhase_previousTitle]
    rw [ht]
    rfl

/-- C1 amended witness: concrete tick with a failing artwork push and a
successful fallback; the hash is recorded anyway and nothing raises. -/
theorem claim_c1_amended_witness :
    (runTick ⟨"A", none⟩ ⟨some "A", none, none, [], some (Thumb.bytes [1])⟩
      ⟨true, true, true, false, true, true⟩).state.previousMediaHash
      = some (hashBytes [1])
    ∧ (runTick ⟨"A", none⟩ ⟨some "A", none, none, [], some (Thumb.bytes [1])⟩
        ⟨true, true, true, false, true, true⟩).raised = false :=
  (claim_c1_amended ⟨"A", none⟩ ⟨some "A", none, none, [], some (Thumb.bytes [1])⟩
    ⟨true, true, true, false, true, true⟩ "A" [1]).1
    (by decide) (by decide) (by decide) (by decide)

/-- C3 counterexample: a tick whose title changed while the artwork
fingerprint is unchanged (the snapshot hash equals the stored hash) pushes
to the artwork key twice (blank + re-push of the same artwork), refuting the
claimed independence. -/
theorem claim_c3_counterexample :
    textChanged ⟨"A", some (hashBytes [1])⟩
      ⟨some "B", none, none, [], some (Thumb.bytes [1])⟩ = true
    ∧ hashAlbumArt (some ⟨some "B", none, none, [], some (Thumb.bytes [1])⟩)
      = some (hashBytes [1])
    ∧ countArtKey (runTick ⟨"A", some (hashBytes [1])⟩
        ⟨some "B", none, none, [], some (Thumb.bytes [1])⟩ allOk).events = 2 := by
  decide

/-- C3 amended: one direction of the independence holds — an unchanged title
means no text push — but a title change is not independent of artwork: it
blanks the artwork key, resets the stored fingerprint to `None` (line 232)
and therefore re-pushes the artwork even when its fingerprint is unchanged. -/
theorem claim_c3_amended (s : SyncState) (info : MediaInfo) (o : Oracle)
    (t : String) (b : List Nat) :
    (info.title = some s.previousTitle → countText (runTick s info o).events = 0)
    ∧ (textChanged s info = true → info.title = some t →
        info.thumbnailBytes = some (Thumb.bytes b) →
        countArtImage (runTick s info allOk).events = 1
        ∧ countArtBlank (runTick s info allOk).events = 1) := by
  constructor
  · intro ht
    apply no_text_of_not_textChanged
    simp [textChanged, ht]
  · intro htc ht hb
    have hne : ¬ t = "" := by
      simp [textChanged, ht] at htc
      exact htc.2
    have hup : updateCurrentlyPlaying info allOk = [PushEvent.text true] := by
      simp [updateCurrentlyPlaying, ht, hne, allOk]
    have hh : hashAlbumArt (some info) = some (hashBytes b) := by
      simp [hashAlbumArt, hb]
    have hua : updateAlbumArt (some info) allOk
        = ([PushEvent.artImage b true], false) := by
      simp [updateAlbumArt, hb, allOk]
    have htc2 : textChanged s info = true := htc
    unfold runTick artPhase
    rw [htc2]
    simp [hup, hua, hh, ht, show allOk.blank1Ok = true from rfl,
      countArtImage, countArtBlank, List.filter]

/-- C3 amended witness: concrete title-change tick with unchanged artwork
fingerprint — no text suppression issue, and the artwork is re-pushed. -/
theorem claim_c3_amended_witness :
    countArtImage (runTick ⟨"A", some (hashBytes [1])⟩
      ⟨some "B", none, none, [], some (Thumb.bytes [1])⟩ allOk).events = 1
    ∧ countArtBlank (runTick ⟨"A", some (hashBytes [1])⟩
        ⟨some "B", none, none, [], some (Thumb.bytes [1])⟩ allOk).events = 1 :=
  (claim_c3_amended ⟨"A", some (hashBytes [1])⟩
    ⟨some "B", none, none, [], some (Thumb.bytes [1])⟩ allOk "B" [1]).2
    (by decide) (by decide) (by decide)

/-- C4 counterexample: the fingerprint function maps the session-with-no-art
dict (`thumbnailBytes = None`) and the provider-failure dict (key absent) to
the SAME value `None` — not two distinct sentinels — and `None` never
registers as a change (guard of line 236), so the sequence
`Bytes(X) → NoArtwork → Bytes(X)` triggers zero change events, not two. -/
theorem claim_c4_counterexample :
    hashAlbumArt (some ⟨some "T", some "ar", some "al", [], some Thumb.pyNone⟩)
      = hashAlbumArt (some (get_current_media_info ProviderEnv.raises))
    ∧ hashAlbumArt (some ⟨some "T", some "ar", some "al", [], some Thumb.pyNone⟩)
      = none
    ∧ (runTicks ⟨"T", some (hashBytes [1, 2])⟩
        [⟨some "T", some "ar", some "al", [], some Thumb.pyNone⟩,
         ⟨some "T", some "ar", some "al", [], some (Thumb.bytes [1, 2])⟩]
        allOk).events = [] := by
  decide

/-- C4 amended: `hashAlbumArt` yields `None` both for a session with no
artwork and for a provider failure (no sentinel, treated by the loop's guard
as "no change"); only the no-session `"No Image"` string maps to a real
sentinel hash; consequently a `None` fingerprint makes the artwork phase a
complete no-op. -/
theorem claim_c4_amended (m : MediaInfo) :
    (m.thumbnailBytes = some Thumb.pyNone → hashAlbumArt (some m) = none)
    ∧ (m.thumbnailBytes = none → hashAlbumArt (some m) = none)
    ∧ (m.thumbnailBytes = some Thumb.noImage →
        hashAlbumArt (some m) = some noImageHash)
    ∧ (∀ evs s o, hashAlbumArt (some m) = none →
        artPhase evs s m o = ⟨evs, s, false⟩) := by
  refine ⟨?_, ?_, ?_, ?_⟩
  · intro h; simp [hashAlbumArt, h]
  · intro h; simp [hashAlbumArt, h]
  · intro h; simp [hashAlbumArt, h]
  · intro evs s o h
    unfold artPhase
    rw [h, if_neg (by simp)]

/-- C4 amended witness: the provider-failure dict has fingerprint `None` and
a concrete artwork phase on it changes nothing. -/
theorem claim_c4_amended_witness :
    artPhase [] initialState (get_current_media_info ProviderEnv.raises) allOk
      = ⟨[], initialState, false⟩ :=
  (claim_c4_amended (get_current_media_info ProviderEnv.raises)).2.2.2
    [] initialState allOk (by decide)

/-- C5 counterexample: with no active media session the fetch returns
`title = "---"` (and `thumbnailBytes = "No Image"`), not the claimed
`title = ""` with `ProviderUnavailable`. -/
theorem claim_c5_counterexample :
    (get_current_media_info ProviderEnv.noSession).title = some "---"
    ∧ ¬ (get_current_media_info ProviderEnv.noSession).title = some "" := by
  decide

/-- C5 amended: the fetch never raises (every exception becomes the bare
`{title: ""}` dict with no artwork key); but a missing session is reported
as the sentinel dict `{title: "---", thumbnailBytes: "No Image"}`, and a
session whose thumbnail copy fails yields `thumbnailBytes = None`. -/
theorem claim_c5_amended (p : SessionProps) :
    get_current_media_info ProviderEnv.raises = ⟨some "", none, none, [], none⟩
    ∧ get_current_media_info ProviderEnv.noSession
      = ⟨some "---", none, none, [], some Thumb.noImage⟩
    ∧ (p.thumbResult = none →
        (get_current_media_info (ProviderEnv.session p)).thumbnailBytes
          = some Thumb.pyNone)
    ∧ (∀ b, p.thumbResult = some b →
        (get_current_media_info (ProviderEnv.session p)).thumbnailBytes
          = some (Thumb.bytes b)) := by
  refine ⟨rfl, rfl, ?_, ?_⟩
  · intro h
    simp [get_current_media_info, get_media_info, h]
  · intro b h
    simp [get_current_media_info, get_media_info, h]

/-- C5 amended witness: a concrete session whose thumbnail copy fails gives
`thumbnailBytes = None`. -/
theorem claim_c5_amended_witness :
    (get_current_media_info
      (ProviderEnv.session ⟨some "X", "a", "al", [], none⟩)).thumbnailBytes
      = some Thumb.pyNone :=
  (claim_c5_amended ⟨some "X", "a", "al", [], none⟩).2.2.1 (by decide)

/-- C6 counterexample: for the provider-failure snapshot (empty title, no
artwork key) two unchanged ticks perform zero text pushes and zero artwork
pushes — not exactly one of each as claimed for every snapshot. -/
theorem claim_c6_counterexample :
    ¬ (countText (runTicks initialState
        (List.replicate 2 (get_current_media_info ProviderEnv.raises))
        allOk).events = 1
      ∧ countArtImage (runTicks initialState
          (List.replicate 2 (get_current_media_info ProviderEnv.raises))
          allOk).events = 1) := by
  decide

/-- C6 amended: for every snapshot with a non-empty (non-`None`) title and
real artwork bytes, N+1 unchanged ticks from the initial state perform
exactly one text push and exactly one real-artwork push (plus one blank push
to the artwork key), all on the first tick; snapshots with an empty title or
no hashable artwork trigger no corresponding push at all. -/
theorem claim_c6_amended (t : String) (b : List Nat) (info : MediaInfo)
    (N : Nat) (ht : info.title = some t)
    (hb : info.thumbnailBytes = some (Thumb.bytes b)) (hne : t ≠ "") :
    countText (runTicks initialState (List.replicate (N + 1) info)
      allOk).events = 1
    ∧ countArtImage (runTicks initialState (List.replicate (N + 1) info)
        allOk).events = 1
    ∧ countArtBlank (runTicks initialState (List.replicate (N + 1) info)
        allOk).events = 1
    ∧ (runTicks initialState (List.replicate (N + 1) info) allOk).raised
      = false := by
  rw [List.replicate_succ]
  unfold runTicks
  rw [runTick_first t b info ht hb hne, runTicks_steady t b info allOk ht hb N]
  simp [countText, countArtImage, countArtBlank, List.filter]

/-- C6 amended witness: three unchanged ticks of a concrete playing snapshot
give exactly one text push, one artwork push and one blank push. -/
theorem claim_c6_amended_witness :
    countText (runTicks initialState
      (List.replicate 3 ⟨some "S", none, none, [], some (Thumb.bytes [9])⟩)
      allOk).events = 1
    ∧ countArtImage (runTicks initialState
        (List.replicate 3 ⟨some "S", none, none, [], some (Thumb.bytes [9])⟩)
        allOk).events = 1
    ∧ countArtBlank (runTicks initialState
        (List.replicate 3 ⟨some "S", none, none, [], some (Thumb.bytes [9])⟩)
        allOk).events = 1
    ∧ (runTicks initialState
        (List.replicate 3 ⟨some "S", none, none, [], some (Thumb.bytes [9])⟩)
        allOk).raised = false :=
  claim_c6_amended "S" [9] ⟨some "S", none, none, [], some (Thumb.bytes [9])⟩
    2 (by decide) (by decide) (by decide)

/-- C7 counterexample: the failure of a single device push — the unprotected
blank push of line 231 during a title change — raises out of the tick body,
terminating the polling loop (ending the connection cycle), although neither
device open nor enumeration failed. -/
theorem claim_c7_counterexample :
    (runTick initialState
      ⟨some "S", some "ar", some "al", [], some (Thumb.bytes [9])⟩
      ⟨true, true, false, true, true, true⟩).raised = true
    ∧ (runTick initialState
        ⟨some "S", some "ar", some "al", [], some (Thumb.bytes [9])⟩
        ⟨true, true, false, true, true, true⟩).events
      = [PushEvent.text true, PushEvent.artBlank false] := by
  decide

/-- C7 amended: errors from the snapshot fetch (always caught), from banner
rendering, from the text push, and from the first artwork push never
terminate the loop; only the unprotected blank pushes (title-change blank of
line 231, `"No Image"` blank of line 146, post-failure fallback blank of
line 159) can raise and end the connection cycle. -/
theorem claim_c7_amended (s : SyncState) (info : MediaInfo) (o : Oracle)
    (h1 : o.blank1Ok = true) (h2 : o.fallbackOk = true)
    (h3 : o.noImageBlankOk = true) :
    (runTick s info o).raised = false := by
  unfold runTick
  rw [h1]
  split
  · exact artPhase_no_raise _ _ info o h2 h3
  · exact artPhase_no_raise _ _ info o h2 h3

/-- C7 amended witness: a tick in which rendering fails, the text push would
fail, and the artwork push fails (recovered by its fallback) still completes
without raising. -/
theorem claim_c7_amended_witness :
    (runTick initialState
      ⟨some "S", some "ar", some "al", [], some (Thumb.bytes [9])⟩
      ⟨false, false, true, false, true, true⟩).raised = false :=
  claim_c7_amended initialState
    ⟨some "S", some "ar", some "al", [], some (Thumb.bytes [9])⟩
    ⟨false, false, true, false, true, true⟩ rfl rfl rfl

end MediaUpdater
